import Mathlib

/-!
Verification of the metrika-score-api repository: a shallow embedding of
the visit-scoring pipeline (`fetch_level4_for_date.py`), the job lifecycle
and result pagination (`app/main.py`, `app/supabase_db.py`), the conversion
CSV formatter (`app/send_conversions.py`), the single-conversion request
validator (`app/pydantic_models.py`) and the upload-status reconciliation
(`app/send_webhook_conversions.py`, `app/main.py`), together with theorems
settling the specification's claims about them.
-/

namespace MetrikaScore

/-! ### Feature table rows

One row of the per-visit feature DataFrame built in
`fetch_level4_for_date.calculate_level4_visits` (lines 127-142).
`std_pause` is a real number because `np.std` takes a square root. -/

structure Row where
  visitId : String
  clientId : String
  dateTime : String
  visitDuration : Int
  bounce : Int
  pageViews : Int
  device : Nat
  slots : Nat
  slot_range : Int
  slot_density : ℚ
  median_pause : ℚ
  mean_pause : ℚ
  std_pause : ℝ

/-- The record returned per tier-4+ visit (line 167 of
`fetch_level4_for_date.py`: the projection onto
`visitId, clientId, dateTime, visitDuration`). -/
structure SelVisit where
  visitId : String
  clientId : String
  dateTime : String
  visitDuration : Int
deriving DecidableEq, Repr

/-- The deterministic rule of line 146:
`(visitDuration >= 180) & (pageViews >= 5) & (slots >= 5)`. -/
def ruleMask (r : Row) : Bool :=
  decide (180 ≤ r.visitDuration) && decide (5 ≤ r.pageViews) && decide (5 ≤ r.slots)

/-- Threshold lookup of line 166: `thresholds.get(name, 0.5)`.
`th` is the parsed contents of `level4_thresholds.json` (or the default
dictionary of line 148 when the file is absent). -/
def thrGet (th : List (String × ℚ)) (name : String) : ℚ :=
  (th.lookup name).getD (mkRat 1 2)

/-- One pass of the assignment `pred_high.loc[idx] = proba > threshold`
(line 166): every rule-negative row of device class `c` gets the model
verdict, every other row keeps its previous prediction.  Note the
candidate set is computed from the rule mask, not from the current
predictions, exactly as `idx` on line 150. -/
def applyModel (proba : Row → ℚ) (t : ℚ) (c : Nat) : List Row → List Bool → List Bool
  | r :: rs, p :: ps =>
      (if r.device == c && !ruleMask r then decide (t < proba r) else p) ::
        applyModel proba t c rs ps
  | _, _ => []

/-- One iteration of the loop over `[(1, "desktop"), (2, "mobile")]`
(lines 149-166): skip when no rule-negative row of this device class
exists (`idx.empty`), raise `FileNotFoundError` when no model file for
the class is found, otherwise overwrite the candidates' predictions with
`proba > thresholds.get(name, 0.5)`.  `models` abstracts the model files
on disk: `none` means none of the three candidate paths for the class
exists, `some proba` is the loaded model's positive-class probability. -/
def modelStep (models : String → Option (Row → ℚ)) (th : List (String × ℚ))
    (c : Nat) (name : String) (rows : List Row) (pred : List Bool) :
    Except String (List Bool) :=
  if rows.all (fun r => !(r.device == c && !ruleMask r)) then
    Except.ok pred
  else
    match models name with
    | none => Except.error ("Нет модели для " ++ name)
    | some proba => Except.ok (applyModel proba (thrGet th name) c rows pred)

/-- The classification core of `calculate_level4_visits` (lines 146-166):
start from the rule mask and run the two device-class model passes in
order. -/
def classifyPred (models : String → Option (Row → ℚ)) (th : List (String × ℚ))
    (rows : List Row) : Except String (List Bool) :=
  match modelStep models th 1 "desktop" rows (rows.map ruleMask) with
  | Except.error e => Except.error e
  | Except.ok p1 =>
    match modelStep models th 2 "mobile" rows p1 with
    | Except.error e => Except.error e
    | Except.ok p2 => Except.ok p2

/-- Lines 167-169: keep the rows predicted tier-4+ and project them onto
the four output fields. -/
def calculate_level4_visits (models : String → Option (Row → ℚ))
    (th : List (String × ℚ)) (rows : List Row) : Except String (List SelVisit) :=
  (classifyPred models th rows).map fun pred =>
    ((rows.zip pred).filter (fun rp => rp.2)).map fun rp =>
      ⟨rp.1.visitId, rp.1.clientId, rp.1.dateTime, rp.1.visitDuration⟩

instance {ε α : Type} [DecidableEq ε] [DecidableEq α] : DecidableEq (Except ε α) := fun a b =>
  match a, b with
  | .ok x, .ok y => decidable_of_iff (x = y) (by simp)
  | .error x, .error y => decidable_of_iff (x = y) (by simp)
  | .ok _, .error _ => isFalse (by simp)
  | .error _, .ok _ => isFalse (by simp)

/-- A helper for concrete rows in witnesses. -/
def mkRow (vd pv : Int) (dev slots : Nat) : Row :=
  { visitId := "v", clientId := "c", dateTime := "2025-07-01 12:00:00",
    visitDuration := vd, bounce := 0, pageViews := pv, device := dev,
    slots := slots, slot_range := 0, slot_density := 0,
    median_pause := 0, mean_pause := 0, std_pause := 0 }

example : ruleMask (mkRow 200 6 1 7) = true := by decide

example :
    classifyPred (fun _ => none) [] [mkRow 200 6 1 7] = Except.ok [true] := by decide

example :
    classifyPred (fun _ => none) [] [mkRow 10 1 0 0] = Except.ok [false] := by decide

example :
    classifyPred (fun _ => none) [] [mkRow 10 1 1 0] =
      Except.error "Нет модели для desktop" := by decide

example :
    classifyPred (fun n => if n = "desktop" then some (fun _ => mkRat 7 10) else none)
      [] [mkRow 10 1 1 0] = Except.ok [true] := by decide

/-! ### Lemmas about the model passes -/

theorem applyModel_length (proba : Row → ℚ) (t : ℚ) (c : Nat) :
    ∀ (rows : List Row) (pred : List Bool),
      (applyModel proba t c rows pred).length = min rows.length pred.length
  | [], [] => by simp [applyModel]
  | [], _ :: _ => by simp [applyModel]
  | _ :: _, [] => by simp [applyModel]
  | r :: rs, p :: ps => by
      simp [applyModel, applyModel_length proba t c rs ps, Nat.succ_min_succ]

theorem applyModel_get (proba : Row → ℚ) (t : ℚ) (c : Nat) :
    ∀ (rows : List Row) (pred : List Bool) (i : Nat) (h1 : i < rows.length)
      (h2 : i < pred.length) (h3 : i < (applyModel proba t c rows pred).length),
      (applyModel proba t c rows pred).get ⟨i, h3⟩ =
        (if (rows.get ⟨i, h1⟩).device == c && !ruleMask (rows.get ⟨i, h1⟩)
          then decide (t < proba (rows.get ⟨i, h1⟩)) else pred.get ⟨i, h2⟩)
  | _ :: _, _ :: _, 0, _, _, _ => rfl
  | _ :: rs, _ :: ps, i + 1, h1, h2, h3 =>
      applyModel_get proba t c rs ps i (Nat.lt_of_succ_lt_succ h1)
        (Nat.lt_of_succ_lt_succ h2) (Nat.lt_of_succ_lt_succ h3)

/-- A successful model pass keeps the prediction list's length and leaves
every entry whose row is not a candidate of this pass untouched. -/
theorem modelStep_ok_get (models : String → Option (Row → ℚ)) (th : List (String × ℚ))
    (c : Nat) (name : String) (rows : List Row) (pred pred' : List Bool)
    (hok : modelStep models th c name rows pred = Except.ok pred')
    (hlen : pred.length = rows.length) :
    pred'.length = rows.length ∧
      ∀ (i : Nat) (h1 : i < rows.length) (h2 : i < pred.length) (h3 : i < pred'.length),
        ((rows.get ⟨i, h1⟩).device == c && !ruleMask (rows.get ⟨i, h1⟩)) = false →
          pred'.get ⟨i, h3⟩ = pred.get ⟨i, h2⟩ := by
  unfold modelStep at hok
  split at hok
  · cases hok
    exact ⟨hlen, fun i h1 h2 h3 _ => rfl⟩
  · cases hmod : models name with
    | none => rw [hmod] at hok; cases hok
    | some proba =>
        rw [hmod] at hok
        cases hok
        refine ⟨by rw [applyModel_length, hlen, Nat.min_self], ?_⟩
        intro i h1 h2 h3 hcond
        rw [applyModel_get proba (thrGet th name) c rows pred i h1 h2 h3, hcond]
        simp

/-- If some rule-negative row of class `c` is present, a successful model
pass implies the class's model was found. -/
theorem modelStep_ok_model_exists (models : String → Option (Row → ℚ))
    (th : List (String × ℚ)) (c : Nat) (name : String) (rows : List Row)
    (pred pred' : List Bool)
    (hok : modelStep models th c name rows pred = Except.ok pred')
    (hc : ∃ r ∈ rows, (r.device == c && !ruleMask r) = true) :
    models name ≠ none := by
  unfold modelStep at hok
  split at hok
  · rename_i hall
    obtain ⟨r, hr, hcond⟩ := hc
    have := List.all_eq_true.mp hall r hr
    rw [hcond] at this
    cases this
  · cases hmod : models name with
    | none => rw [hmod] at hok; cases hok
    | some proba => simp [hmod]

/-- If some rule-negative row of class `c` is present and the class's model
is missing, the pass fails with the error naming the class (line 159). -/
theorem modelStep_error_of_missing (models : String → Option (Row → ℚ))
    (th : List (String × ℚ)) (c : Nat) (name : String) (rows : List Row)
    (pred : List Bool)
    (hc : ∃ r ∈ rows, (r.device == c && !ruleMask r) = true)
    (hmod : models name = none) :
    modelStep models th c name rows pred = Except.error ("Нет модели для " ++ name) := by
  unfold modelStep
  rw [if_neg, hmod]
  intro hall
  obtain ⟨r, hr, hcond⟩ := hc
  have := List.all_eq_true.mp hall r hr
  rw [hcond] at this
  cases this

/-- A model pass whose class has an available model never fails: it
returns some prediction list. -/
theorem modelStep_isOk_of_model (models : String → Option (Row → ℚ))
    (th : List (String × ℚ)) (c : Nat) (name : String) (rows : List Row)
    (pred : List Bool) (hmod : models name ≠ none) :
    ∃ pred1, modelStep models th c name rows pred = Except.ok pred1 := by
  unfold modelStep
  split
  · exact ⟨pred, rfl⟩
  · cases hm : models name with
    | none => exact absurd hm hmod
    | some proba => exact ⟨_, rfl⟩

/-- If no rule-negative row of class `c` is present, the pass is skipped
(`idx.empty` on line 151) and the predictions are returned unchanged. -/
theorem modelStep_skip (models : String → Option (Row → ℚ)) (th : List (String × ℚ))
    (c : Nat) (name : String) (rows : List Row) (pred : List Bool)
    (hnone : ∀ r ∈ rows, ¬((r.device == c && !ruleMask r) = true)) :
    modelStep models th c name rows pred = Except.ok pred := by
  unfold modelStep
  rw [if_pos]
  refine List.all_eq_true.mpr fun r hr => ?_
  have h := hnone r hr
  simp only [Bool.not_eq_true] at h ⊢
  simp [h]

/-! ### Claims C1, C2, C3 -/

/-- C1: for every visit in a day's input whose features satisfy the
deterministic rule (visitDuration ≥ 180 AND pageViews ≥ 5 AND
activeSlotCount ≥ 5), the classifier's output for that visit is
tier4Plus = true, regardless of any model's predicted probability
(`models` and `th` are universally quantified): rule-positive visits are
never routed to a model. -/
theorem C1_rule_precedence (models : String → Option (Row → ℚ))
    (th : List (String × ℚ)) (rows : List Row) (pred : List Bool)
    (hok : classifyPred models th rows = Except.ok pred)
    (i : Nat) (h1 : i < rows.length) (h2 : i < pred.length)
    (hrule : ruleMask (rows.get ⟨i, h1⟩) = true) :
    pred.get ⟨i, h2⟩ = true := by
  unfold classifyPred at hok
  cases hd : modelStep models th 1 "desktop" rows (rows.map ruleMask) with
  | error e => rw [hd] at hok; cases hok
  | ok p1 =>
    rw [hd] at hok
    dsimp only at hok
    cases hm : modelStep models th 2 "mobile" rows p1 with
    | error e => rw [hm] at hok; cases hok
    | ok p2 =>
      rw [hm] at hok
      cases hok
      have hlen0 : (rows.map ruleMask).length = rows.length := by simp
      obtain ⟨hlen1, hpres1⟩ :=
        modelStep_ok_get models th 1 "desktop" rows (rows.map ruleMask) p1 hd hlen0
      obtain ⟨hlen2, hpres2⟩ :=
        modelStep_ok_get models th 2 "mobile" rows p1 pred hm hlen1
      have hcond : ∀ c : Nat,
          ((rows.get ⟨i, h1⟩).device == c && !ruleMask (rows.get ⟨i, h1⟩)) = false := by
        intro c; rw [hrule]; simp
      have e2 := hpres2 i h1 (by omega) h2 (hcond 2)
      have e1 := hpres1 i h1 (by omega) (by omega) (hcond 1)
      rw [e2, e1]
      simp only [List.get_eq_getElem] at hrule ⊢
      simp [hrule]

/-- Witness for C1 at a concrete rule-positive visit: a single desktop
visit with duration 200, 6 page views and 7 active slots is classified
tier-4+ even though no model exists at all. -/
theorem C1_rule_precedence_witness :
    classifyPred (fun _ => none) [] [mkRow 200 6 1 7] = Except.ok [true] ∧
    ruleMask (([mkRow 200 6 1 7] : List Row).get ⟨0, by decide⟩) = true ∧
    ([true] : List Bool).get ⟨0, by decide⟩ = true := by
  refine ⟨by decide, by decide, ?_⟩
  exact C1_rule_precedence (fun _ => none) [] [mkRow 200 6 1 7] [true]
    (by decide) 0 (by decide) (by decide) (by decide)

/-- C2 is refuted on the code: a rule-negative visit whose device class
is 0 (neither desktop = 1 nor mobile = 2) is neither rule-positive nor
evaluated by any model — with no model available for any class the run
still succeeds and the visit is silently classified `false`, instead of
the whole pipeline run failing. -/
theorem C2_counterexample :
    ruleMask (mkRow 10 1 0 0) = false ∧
    (mkRow 10 1 0 0).device = 0 ∧
    classifyPred (fun _ => none) [] [mkRow 10 1 0 0] = Except.ok [false] := by
  decide

/-- C2 (amended): every visit receives exactly one classification
decision (the output has the input's length); each visit is in exactly
one of the three categories rule-positive, model-evaluated
(rule-negative desktop or mobile) or defaulted (rule-negative with any
other device class); defaulted visits are classified `false` without
consulting a model; and a rule-negative desktop or mobile visit whose
class has no model makes the whole run fail (so a successful run implies
the needed models existed). -/
theorem C2_partition_amended (models : String → Option (Row → ℚ))
    (th : List (String × ℚ)) (rows : List Row) (pred : List Bool)
    (hok : classifyPred models th rows = Except.ok pred) :
    pred.length = rows.length ∧
    (∀ r : Row,
      (Bool.toNat (ruleMask r) +
       Bool.toNat (!ruleMask r && (r.device == 1 || r.device == 2)) +
       Bool.toNat (!ruleMask r && !(r.device == 1 || r.device == 2))) = 1) ∧
    (∀ (i : Nat) (h1 : i < rows.length) (h2 : i < pred.length),
      ruleMask (rows.get ⟨i, h1⟩) = false → (rows.get ⟨i, h1⟩).device ≠ 1 →
      (rows.get ⟨i, h1⟩).device ≠ 2 → pred.get ⟨i, h2⟩ = false) ∧
    ((∃ r ∈ rows, r.device = 1 ∧ ruleMask r = false) → models "desktop" ≠ none) ∧
    ((∃ r ∈ rows, r.device = 2 ∧ ruleMask r = false) → models "mobile" ≠ none) := by
  unfold classifyPred at hok
  cases hd : modelStep models th 1 "desktop" rows (rows.map ruleMask) with
  | error e => rw [hd] at hok; cases hok
  | ok p1 =>
    rw [hd] at hok
    dsimp only at hok
    cases hm : modelStep models th 2 "mobile" rows p1 with
    | error e => rw [hm] at hok; cases hok
    | ok p2 =>
      rw [hm] at hok
      cases hok
      have hlen0 : (rows.map ruleMask).length = rows.length := by simp
      obtain ⟨hlen1, hpres1⟩ :=
        modelStep_ok_get models th 1 "desktop" rows (rows.map ruleMask) p1 hd hlen0
      obtain ⟨hlen2, hpres2⟩ :=
        modelStep_ok_get models th 2 "mobile" rows p1 pred hm hlen1
      refine ⟨hlen2, ?_, ?_, ?_, ?_⟩
      · intro r
        cases hr : ruleMask r <;> cases hdev : (r.device == 1 || r.device == 2) <;>
          simp [hr, hdev]
      · intro i h1 h2 hrule hd1 hd2
        have hcond : ∀ c : Nat, c ≠ 0 → c = 1 ∨ c = 2 →
            ((rows.get ⟨i, h1⟩).device == c && !ruleMask (rows.get ⟨i, h1⟩)) = false := by
          intro c _ hc
          have hne : (rows.get ⟨i, h1⟩).device ≠ c := by
            cases hc with
            | inl h => subst h; exact hd1
            | inr h => subst h; exact hd2
          rw [beq_eq_false_iff_ne.mpr hne, Bool.false_and]
        have e2 := hpres2 i h1 (by omega) h2 (hcond 2 (by omega) (Or.inr rfl))
        have e1 := hpres1 i h1 (by omega) (by omega) (hcond 1 (by omega) (Or.inl rfl))
        rw [e2, e1]
        simp only [List.get_eq_getElem] at hrule ⊢
        simp [hrule]
      · intro hex
        obtain ⟨r, hr, hdev, hrule⟩ := hex
        exact modelStep_ok_model_exists models th 1 "desktop" rows (rows.map ruleMask) p1
          hd ⟨r, hr, by simp [hdev, hrule]⟩
      · intro hex
        obtain ⟨r, hr, hdev, hrule⟩ := hex
        exact modelStep_ok_model_exists models th 2 "mobile" rows p1 pred
          hm ⟨r, hr, by simp [hdev, hrule]⟩

/-- Witness for the amended C2 at a concrete two-visit input (one
rule-positive desktop visit, one rule-negative device-0 visit) with no
models available: the run succeeds and both conclusions evaluate. -/
theorem C2_partition_amended_witness :
    classifyPred (fun _ => none) [] [mkRow 200 6 1 7, mkRow 10 1 0 0] =
      Except.ok [true, false] ∧
    ([true, false] : List Bool).length =
      ([mkRow 200 6 1 7, mkRow 10 1 0 0] : List Row).length ∧
    ([true, false] : List Bool).get ⟨1, by decide⟩ = false := by
  have h : classifyPred (fun _ => none) [] [mkRow 200 6 1 7, mkRow 10 1 0 0] =
      Except.ok [true, false] := by decide
  obtain ⟨hlen, _, hdef, _, _⟩ :=
    C2_partition_amended (fun _ => none) [] [mkRow 200 6 1 7, mkRow 10 1 0 0]
      [true, false] h
  exact ⟨h, hlen, hdef 1 (by decide) (by decide) (by decide) (by decide) (by decide)⟩

/-- C3 is refuted on the code: with an empty thresholds configuration
(no probability threshold for `desktop`) but an available desktop model,
classification of a rule-negative desktop visit does not fail — it
proceeds with the substitute threshold 0.5 (`thresholds.get(name, 0.5)`,
line 166) and succeeds. -/
theorem C3_counterexample :
    (([] : List (String × ℚ)).lookup "desktop" = none) ∧
    thrGet [] "desktop" = mkRat 1 2 ∧
    classifyPred (fun n => if n = "desktop" then some (fun _ => mkRat 7 10) else none)
      [] [mkRow 10 1 1 0] = Except.ok [true] := by
  decide

/-- C3 (amended): a missing model for a device class (desktop or mobile)
that occurs among the rule-negative visits fails the whole run with an
error naming the class — for mobile, whenever the run reaches the mobile
pass, i.e. when the desktop pass cannot itself fail (no rule-negative
desktop visit exists, or the desktop model is present); a missing
threshold entry, by contrast, never fails — the lookup silently
substitutes the default 1/2. -/
theorem C3_missing_model_fail_fast (models : String → Option (Row → ℚ))
    (th : List (String × ℚ)) (rows : List Row) :
    ((∃ r ∈ rows, r.device = 1 ∧ ruleMask r = false) → models "desktop" = none →
      classifyPred models th rows = Except.error "Нет модели для desktop") ∧
    (((∀ r ∈ rows, ¬(r.device = 1 ∧ ruleMask r = false)) ∨ models "desktop" ≠ none) →
      (∃ r ∈ rows, r.device = 2 ∧ ruleMask r = false) → models "mobile" = none →
      classifyPred models th rows = Except.error "Нет модели для mobile") ∧
    (∀ name : String, th.lookup name = none → thrGet th name = mkRat 1 2) := by
  refine ⟨?_, ?_, ?_⟩
  · intro hex hmod
    obtain ⟨r, hr, hdev, hrule⟩ := hex
    have herr := modelStep_error_of_missing models th 1 "desktop" rows
      (rows.map ruleMask) ⟨r, hr, by simp [hdev, hrule]⟩ hmod
    unfold classifyPred
    rw [herr]
    rfl
  · intro hdesk hex hmod
    obtain ⟨r, hr, hdev, hrule⟩ := hex
    have herr : ∀ pred : List Bool,
        modelStep models th 2 "mobile" rows pred =
          Except.error ("Нет модели для " ++ "mobile") :=
      fun pred => modelStep_error_of_missing models th 2 "mobile" rows pred
        ⟨r, hr, by simp [hdev, hrule]⟩ hmod
    cases hdesk with
    | inl hnone =>
        have hskip := modelStep_skip models th 1 "desktop" rows (rows.map ruleMask) ?_
        · unfold classifyPred
          rw [hskip]
          dsimp only
          rw [herr]
          rfl
        · intro r1 hr1 hcond
          simp only [Bool.and_eq_true, beq_iff_eq, Bool.not_eq_true'] at hcond
          exact hnone r1 hr1 hcond
    | inr hsome =>
        obtain ⟨p1, hp1⟩ := modelStep_isOk_of_model models th 1 "desktop" rows
          (rows.map ruleMask) hsome
        unfold classifyPred
        rw [hp1]
        dsimp only
        rw [herr]
        rfl
  · intro name hname
    simp [thrGet, hname]

/-- Witness for the amended C3: a single rule-negative desktop visit
with no model on disk fails with the error naming the class; a mixed
day (one rule-negative desktop visit, one rule-negative mobile visit)
with only the desktop model on disk fails naming mobile; and the
threshold lookup on an empty configuration yields the substitute 1/2. -/
theorem C3_missing_model_fail_fast_witness :
    classifyPred (fun _ => none) [] [mkRow 10 1 1 0] =
      Except.error "Нет модели для desktop" ∧
    classifyPred (fun n => if n = "desktop" then some (fun _ => mkRat 7 10) else none)
        [] [mkRow 10 1 1 0, mkRow 10 1 2 0] =
      Except.error "Нет модели для mobile" ∧
    thrGet [] "desktop" = mkRat 1 2 := by
  refine ⟨?_, ?_, ?_⟩
  · exact (C3_missing_model_fail_fast (fun _ => none) [] [mkRow 10 1 1 0]).1
      (by decide) rfl
  · exact (C3_missing_model_fail_fast
        (fun n => if n = "desktop" then some (fun _ => mkRat 7 10) else none)
        [] [mkRow 10 1 1 0, mkRow 10 1 2 0]).2.1
      (Or.inr (by simp)) (by decide) (by simp)
  · exact (C3_missing_model_fail_fast (fun _ => none) [] []).2.2 "desktop" (by decide)

/-! ### Feature extraction (`calculate_level4_visits`, lines 92-143)

The `watch_time` dictionary (event id → timestamp, line 93) and the
`device_map` dictionary (visit id prefix → first-seen device category,
lines 94-99) are abstracted as lookup functions `wt` and `dm`; event
timestamps are modelled in whole seconds (the provider reports
second-precision timestamps). -/

/-- Maximal digit runs of a string, accumulator-style:
`WATCH_RE.findall(...)` with the pattern `\d+` (line 112). -/
def digitRunsAux : List Char → List Char → List (List Char)
  | [], acc => if acc.isEmpty then [] else [acc.reverse]
  | c :: rest, acc =>
      if c.isDigit then digitRunsAux rest (c :: acc)
      else if acc.isEmpty then digitRunsAux rest []
      else acc.reverse :: digitRunsAux rest []

def extractWatchIds (s : String) : List String :=
  (digitRunsAux s.data []).map fun cs => String.mk cs

/-- Model of `[watch_time.get(i) for i in ids if i in watch_time]`
(lines 102 and 114): timestamps of the events that resolve. -/
def resolvedTimes (wt : String → Option Int) (ids : List String) : List Int :=
  ids.filterMap wt

/-- Model of `int((t - t0).total_seconds() // 15)` (lines 106 and 117): the
15-second bucket of `t` relative to `t0`, with Python's floor
division. -/
def slotOf (t0 t : Int) : Int := (t - t0).fdiv 15

def listMin (l : List Int) : Int := l.min?.getD 0

def listMax (l : List Int) : Int := l.max?.getD 0

/-- The bucket indices of all resolved times, anchored at the earliest
(`t0 = min(times)`, lines 105 and 116). -/
def slotsList (times : List Int) : List Int :=
  times.map fun t => slotOf (listMin times) t

/-- Model of `active_slots` (lines 101-106): the number of distinct 15-second
buckets; 0 when no event resolves. -/
def activeSlotCount (times : List Int) : Nat :=
  if times.isEmpty then 0 else (slotsList times).dedup.length

def active_slots (wt : String → Option Int) (ids : List String) : Nat :=
  activeSlotCount (resolvedTimes wt ids)

/-- Model of `max(bucket) - min(bucket)` (line 117); 0 when no event resolves
(line 123). -/
def slotRangeOf (times : List Int) : Int :=
  if times.isEmpty then 0
  else listMax (slotsList times) - listMin (slotsList times)

/-- Insertion sort: models Python's `sorted(...)` on the event times
(line 118). -/
def insertSorted (x : Int) : List Int → List Int
  | [] => [x]
  | y :: ys => if x ≤ y then x :: y :: ys else y :: insertSorted x ys

def sortInts : List Int → List Int
  | [] => []
  | x :: xs => insertSorted x (sortInts xs)

/-- Model of `np.diff(sorted(times))` (line 118): consecutive gaps of the sorted
event times (empty for fewer than two events). -/
def pausesOf (times : List Int) : List Int :=
  let s := sortInts times
  List.zipWith (fun a b => a - b) s.tail s

/-- Model of `np.median` over a list of gaps (sorts, then takes the middle
element, or the mean of the two middle elements). -/
def medianQ (l : List Int) : ℚ :=
  let s := sortInts l
  let n := s.length
  if n = 0 then 0
  else if n % 2 = 1 then ((s.getD (n / 2) 0 : Int) : ℚ)
  else (((s.getD (n / 2 - 1) 0 + s.getD (n / 2) 0 : Int) : ℚ)) / 2

/-- Model of `np.mean` over a list of gaps. -/
def meanQ (l : List Int) : ℚ :=
  if l.isEmpty then 0 else ((l.sum : Int) : ℚ) / (l.length : ℚ)

/-- The population variance underlying `np.std`. -/
def varianceQ (l : List Int) : ℚ :=
  if l.isEmpty then 0
  else ((l.map fun x => ((x : ℚ) - meanQ l) ^ 2).sum) / (l.length : ℚ)

/-- Model of `np.std`: the square root of the population variance (a real
number). -/
noncomputable def stdR (l : List Int) : ℝ :=
  if l.isEmpty then 0 else Real.sqrt ((varianceQ l : ℚ) : ℝ)

/-- Model of `float(np.median(pauses)) if pauses.size else 0.0` (line 119),
nested under the `if times:` branch (lines 115-124). -/
def medianPauseOf (times : List Int) : ℚ :=
  if times.isEmpty then 0
  else if (pausesOf times).isEmpty then 0 else medianQ (pausesOf times)

def meanPauseOf (times : List Int) : ℚ :=
  if times.isEmpty then 0
  else if (pausesOf times).isEmpty then 0 else meanQ (pausesOf times)

noncomputable def stdPauseOf (times : List Int) : ℝ :=
  if times.isEmpty then 0
  else if (pausesOf times).isEmpty then 0 else stdR (pausesOf times)

/-- One raw visit record of the visits download (fields of lines
111-133, with the numeric fields already parsed). -/
structure RawVisit where
  visitId : String
  clientId : String
  dateTime : String
  watchIDs : String
  visitDuration : Int
  bounce : Int
  pageViews : Int

/-- Lines 110-143: the feature row built for one visit. -/
noncomputable def buildRow (wt : String → Option Int) (dm : String → Option Nat)
    (v : RawVisit) : Row :=
  let wids := extractWatchIds v.watchIDs
  let times := resolvedTimes wt wids
  { visitId := v.visitId, clientId := v.clientId, dateTime := v.dateTime,
    visitDuration := v.visitDuration, bounce := v.bounce,
    pageViews := v.pageViews,
    device := (dm v.visitId).getD 0,
    slots := active_slots wt wids,
    slot_range := slotRangeOf times,
    slot_density := (active_slots wt wids : ℚ) / ((v.visitDuration : ℚ) / 60 + 1),
    median_pause := medianPauseOf times,
    mean_pause := meanPauseOf times,
    std_pause := stdPauseOf times }

/-! ### Lemmas about single-event feature values -/

theorem slotOf_self (t : Int) : slotOf t t = 0 := by
  simp [slotOf, Int.sub_self]

theorem slotsList_singleton (a : Int) : slotsList [a] = [0] := by
  have hmin : listMin [a] = a := rfl
  simp [slotsList, hmin, slotOf_self]

theorem activeSlotCount_singleton (a : Int) : activeSlotCount [a] = 1 := by
  simp [activeSlotCount, slotsList_singleton]

theorem slotRangeOf_singleton (a : Int) : slotRangeOf [a] = 0 := by
  have : slotsList [a] = [0] := slotsList_singleton a
  simp [slotRangeOf, this, listMin, listMax]

theorem sortInts_length (l : List Int) : (sortInts l).length = l.length := by
  induction l with
  | nil => rfl
  | cons x xs ih =>
      have step : ∀ (s : List Int), (insertSorted x s).length = s.length + 1 := by
        intro s
        induction s with
        | nil => rfl
        | cons y ys ihs =>
            by_cases h : x ≤ y
            · simp [insertSorted, h]
            · simp [insertSorted, h, ihs]
      simp [sortInts, step, ih]

theorem pausesOf_short (times : List Int) (h : times.length ≤ 1) :
    pausesOf times = [] := by
  have hs : (sortInts times).length ≤ 1 := by rw [sortInts_length]; exact h
  have htail : (sortInts times).tail = [] := by
    cases hsort : sortInts times with
    | nil => rfl
    | cons a as =>
        rw [hsort] at hs
        simp at hs
        simp [hs]
  simp [pausesOf, htail]

theorem medianPauseOf_short (ts : List Int) (h : ts.length ≤ 1) :
    medianPauseOf ts = 0 := by
  by_cases he : ts.isEmpty
  · simp [medianPauseOf, he]
  · simp [medianPauseOf, he, pausesOf_short ts h]

theorem meanPauseOf_short (ts : List Int) (h : ts.length ≤ 1) :
    meanPauseOf ts = 0 := by
  by_cases he : ts.isEmpty
  · simp [meanPauseOf, he]
  · simp [meanPauseOf, he, pausesOf_short ts h]

theorem stdPauseOf_short (ts : List Int) (h : ts.length ≤ 1) :
    stdPauseOf ts = 0 := by
  by_cases he : ts.isEmpty
  · simp [stdPauseOf, he]
  · simp [stdPauseOf, he, pausesOf_short ts h]

/-! ### Claim C4 -/

/-- C4: for every visit with exactly one resolvable page event the
derived `activeSlotCount` is 1 and `slotRange` is 0, and for every visit
with zero or one resolvable page events the derived `medianPause`,
`meanPause` and `stdPause` are all exactly 0. -/
theorem C4_single_event_features (wt : String → Option Int)
    (dm : String → Option Nat) (v : RawVisit) :
    ((resolvedTimes wt (extractWatchIds v.watchIDs)).length = 1 →
      (buildRow wt dm v).slots = 1 ∧ (buildRow wt dm v).slot_range = 0) ∧
    ((resolvedTimes wt (extractWatchIds v.watchIDs)).length ≤ 1 →
      (buildRow wt dm v).median_pause = 0 ∧ (buildRow wt dm v).mean_pause = 0 ∧
      (buildRow wt dm v).std_pause = 0) := by
  constructor
  · intro h
    obtain ⟨a, ha⟩ := List.length_eq_one.mp h
    constructor
    · show active_slots wt (extractWatchIds v.watchIDs) = 1
      unfold active_slots
      rw [ha]
      exact activeSlotCount_singleton a
    · show slotRangeOf (resolvedTimes wt (extractWatchIds v.watchIDs)) = 0
      rw [ha]
      exact slotRangeOf_singleton a
  · intro h
    refine ⟨?_, ?_, ?_⟩
    · show medianPauseOf (resolvedTimes wt (extractWatchIds v.watchIDs)) = 0
      exact medianPauseOf_short _ h
    · show meanPauseOf (resolvedTimes wt (extractWatchIds v.watchIDs)) = 0
      exact meanPauseOf_short _ h
    · show stdPauseOf (resolvedTimes wt (extractWatchIds v.watchIDs)) = 0
      exact stdPauseOf_short _ h

/-- Witness for C4 at a concrete visit whose `watchIDs` string `"[100]"`
yields the single event id `"100"`, resolved to timestamp 50. -/
theorem C4_single_event_features_witness :
    (resolvedTimes (fun s => if s = "100" then some 50 else none)
        (extractWatchIds "[100]")).length = 1 ∧
    (buildRow (fun s => if s = "100" then some 50 else none) (fun _ => none)
        ⟨"v1", "c1", "2025-07-01 10:00:00", "[100]", 30, 0, 1⟩).slots = 1 ∧
    (buildRow (fun s => if s = "100" then some 50 else none) (fun _ => none)
        ⟨"v1", "c1", "2025-07-01 10:00:00", "[100]", 30, 0, 1⟩).slot_range = 0 ∧
    (buildRow (fun s => if s = "100" then some 50 else none) (fun _ => none)
        ⟨"v1", "c1", "2025-07-01 10:00:00", "[100]", 30, 0, 1⟩).median_pause = 0 ∧
    (buildRow (fun s => if s = "100" then some 50 else none) (fun _ => none)
        ⟨"v1", "c1", "2025-07-01 10:00:00", "[100]", 30, 0, 1⟩).mean_pause = 0 ∧
    (buildRow (fun s => if s = "100" then some 50 else none) (fun _ => none)
        ⟨"v1", "c1", "2025-07-01 10:00:00", "[100]", 30, 0, 1⟩).std_pause = 0 := by
  have h1 : (resolvedTimes (fun s => if s = "100" then some 50 else none)
      (extractWatchIds "[100]")).length = 1 := by decide
  obtain ⟨hs, hr⟩ :=
    (C4_single_event_features (fun s => if s = "100" then some 50 else none)
      (fun _ => none) ⟨"v1", "c1", "2025-07-01 10:00:00", "[100]", 30, 0, 1⟩).1 h1
  obtain ⟨hm, hmn, hstd⟩ :=
    (C4_single_event_features (fun s => if s = "100" then some 50 else none)
      (fun _ => none) ⟨"v1", "c1", "2025-07-01 10:00:00", "[100]", 30, 0, 1⟩).2
      (le_of_eq h1)
  exact ⟨h1, hs, hr, hm, hmn, hstd⟩

/-! ### Job lifecycle (`app/supabase_db.py` lines 93-130,
`app/main.py` lines 157-169) -/

/-- The stored task row: the five fields written by `create_task` and
overwritten as a block by every `update_task_status` call, plus
`started_at`, which is written once at creation and never touched by
updates. -/
structure TaskRecord where
  status : String
  progress : Nat
  message : String
  error : Option String
  finished_at : Option String
  started_at : String
deriving DecidableEq, Repr

/-- Model of `create_task` (supabase_db.py lines 93-112): a fresh record in
status `pending` with progress 0 and no finish timestamp. -/
def createTaskRecord (startedAt : String) : TaskRecord :=
  { status := "pending", progress := 0, message := "", error := none,
    finished_at := none, started_at := startedAt }

/-- Model of `update_task_status` (supabase_db.py lines 114-130): overwrite the
five fields of the update dictionary, leaving `started_at` alone. -/
def updateTaskStatus (t : TaskRecord) (status : String) (progress : Nat)
    (message : String) (error : Option String) (finishedAt : Option String) :
    TaskRecord :=
  { t with status := status, progress := progress, message := message,
           error := error, finished_at := finishedAt }

/-- Model of `run_task` (main.py lines 157-169): the successive stored states of
one job run — created `pending`, updated to `running` with progress 10,
then exactly one terminal update: `done` on pipeline success, `failed`
(with the error's message) on any raised error, both with progress 100
and a finish timestamp. -/
def runTaskTrace (ok : Bool) (errMsg startedAt finishedAt : String) :
    List TaskRecord :=
  let t0 := createTaskRecord startedAt
  let t1 := updateTaskStatus t0 "running" 10 "Выполнение расчёта в Метрике" none none
  let t2 :=
    if ok then updateTaskStatus t1 "done" 100 "Готово" none (some finishedAt)
    else updateTaskStatus t1 "failed" 100 "Ошибка" (some errMsg) (some finishedAt)
  [t0, t1, t2]

/-- A task record is terminal when its status is `done` or `failed`. -/
def isTerminal (t : TaskRecord) : Bool :=
  t.status == "done" || t.status == "failed"

/-! ### Claim C5 -/

/-- C5: across a job run's stored states (pending → running → done or
failed), the stored progress never decreases, the finish timestamp is
set exactly on the terminal states, the trace contains exactly one
terminal state and it is the last one — so there is one terminal
transition and no mutation after it. -/
theorem C5_job_lifecycle (ok : Bool) (errMsg startedAt finishedAt : String) :
    List.Chain' (fun a b => a.progress ≤ b.progress)
      (runTaskTrace ok errMsg startedAt finishedAt) ∧
    (runTaskTrace ok errMsg startedAt finishedAt).all
      (fun t => t.finished_at.isSome == isTerminal t) = true ∧
    (runTaskTrace ok errMsg startedAt finishedAt).countP isTerminal = 1 ∧
    ((runTaskTrace ok errMsg startedAt finishedAt).dropLast.all
      (fun t => !isTerminal t)) = true := by
  cases ok <;>
    simp [runTaskTrace, createTaskRecord, updateTaskStatus, isTerminal,
      List.countP_cons, List.countP_nil]

/-! ### Result retrieval with pagination (`app/main.py` lines 203-230) -/

/-- The four distinct outcomes of `GET /tasks/{id}/result`:
404 "Task not found", 202 "Task not finished", 404 "Result not found",
or the paginated page. -/
inductive ResultOutcome where
  | notFound : ResultOutcome
  | notFinished : ResultOutcome
  | resultMissing : ResultOutcome
  | page (data : List SelVisit) (total limit offset : Nat) (has_more : Bool) :
      ResultOutcome
deriving DecidableEq, Repr

/-- Model of `get_task_result` (main.py lines 203-230) as a function of the
stored task row and the stored result list: missing task → not found;
missing result → "not finished" when status ≠ done, else "result
missing"; otherwise the slice `result[offset : offset + limit]` with
`total = len(result)` and `has_more = offset + limit < total`. -/
def get_task_result (task : Option TaskRecord) (result : Option (List SelVisit))
    (limit offset : Nat) : ResultOutcome :=
  match task with
  | none => ResultOutcome.notFound
  | some t =>
    match result with
    | none =>
        if t.status ≠ "done" then ResultOutcome.notFinished
        else ResultOutcome.resultMissing
    | some r =>
        ResultOutcome.page ((r.drop offset).take limit) r.length limit offset
          (decide (offset + limit < r.length))

/-! ### Claim C6 -/

/-- C6 is refuted on the code: for an existing job whose status is
`running` (not yet `done`) but for which a stored result already exists
— the reachable window in `run_task` between `save_result` and the
`done` status update (main.py lines 164-166) — result retrieval returns
the full paginated result list, not the "not finished" outcome. -/
theorem C6_counterexample :
    (updateTaskStatus (createTaskRecord "s") "running" 10
        "Выполнение расчёта в Метрике" none none).status = "running" ∧
    get_task_result
        (some (updateTaskStatus (createTaskRecord "s") "running" 10
          "Выполнение расчёта в Метрике" none none))
        (some [⟨"v1", "c1", "2025-07-01 12:00:00", 200⟩]) 100 0 =
      ResultOutcome.page [⟨"v1", "c1", "2025-07-01 12:00:00", 200⟩] 1 100 0 false := by
  decide

/-- C6 (amended): for an existing job id, result retrieval never yields
"not found"; when no result is stored yet it yields the distinct "not
finished" outcome whenever the status is not `done` (in particular for
`pending`, `running` and `failed`), and the distinct "result missing"
outcome when the status is `done`; but when a result is already stored
the page is returned regardless of status, so "never a result list
before `done`" only holds for jobs without a stored result. -/
theorem C6_not_finished_amended (t : TaskRecord) (result : Option (List SelVisit))
    (limit offset : Nat) :
    (get_task_result (some t) result limit offset ≠ ResultOutcome.notFound) ∧
    (result = none → t.status ≠ "done" →
      get_task_result (some t) result limit offset = ResultOutcome.notFinished) ∧
    (result = none → t.status = "done" →
      get_task_result (some t) result limit offset = ResultOutcome.resultMissing) ∧
    (ResultOutcome.notFinished ≠ ResultOutcome.notFound ∧
      ResultOutcome.notFinished ≠ ResultOutcome.resultMissing) := by
  refine ⟨?_, ?_, ?_, by decide⟩
  · cases result with
    | none =>
        by_cases h : t.status = "done" <;> simp [get_task_result, h]
    | some r => simp [get_task_result]
  · rintro rfl h
    simp [get_task_result, h]
  · rintro rfl h
    simp [get_task_result, h]

/-- Witness for the amended C6: a running task with no stored result
gets "not finished". -/
theorem C6_not_finished_amended_witness :
    get_task_result
        (some (updateTaskStatus (createTaskRecord "s") "running" 10
          "Выполнение расчёта в Метрике" none none)) none 100 0 =
      ResultOutcome.notFinished := by
  exact (C6_not_finished_amended
      (updateTaskStatus (createTaskRecord "s") "running" 10
        "Выполнение расчёта в Метрике" none none) none 100 0).2.1 rfl (by decide)

/-! ### Claim C10 -/

/-- C10: paginating a stored result list of length `total` with
`limit ∈ [1, 1000]` and any offset returns exactly the slice
`result[offset : offset + limit]` (whose length is at most `limit`),
reports the full length as `total`, and sets `has_more` exactly when
`offset + limit < total`; an offset at or past the end yields an empty
page with `has_more = false` rather than an error. -/
theorem C10_pagination (t : TaskRecord) (r : List SelVisit) (limit offset : Nat)
    (hlo : 1 ≤ limit) (hhi : limit ≤ 1000) :
    get_task_result (some t) (some r) limit offset =
      ResultOutcome.page ((r.drop offset).take limit) r.length limit offset
        (decide (offset + limit < r.length)) ∧
    ((r.drop offset).take limit).length ≤ limit ∧
    (∀ b : Bool, decide (offset + limit < r.length) = b → (b = true ↔ offset + limit < r.length)) ∧
    (r.length ≤ offset →
      (r.drop offset).take limit = [] ∧ decide (offset + limit < r.length) = false) := by
  refine ⟨rfl, ?_, ?_, ?_⟩
  · simp [List.length_take]
  · rintro b rfl
    simp
  · intro hoff
    constructor
    · have : r.drop offset = [] := List.drop_eq_nil_of_le hoff
      simp [this]
    · simp
      omega

/-- Witness for C10 on a three-element result list with limit 2 and
offset 2: the page is the one-element tail, `has_more` is false. -/
theorem C10_pagination_witness :
    get_task_result (some (createTaskRecord "s"))
        (some [⟨"a", "ca", "d1", 1⟩, ⟨"b", "cb", "d2", 2⟩, ⟨"c", "cc", "d3", 3⟩])
        2 2 =
      ResultOutcome.page [⟨"c", "cc", "d3", 3⟩] 3 2 2 false ∧
    ([⟨"c", "cc", "d3", 3⟩] : List SelVisit).length ≤ 2 := by
  have h := C10_pagination (createTaskRecord "s")
    [⟨"a", "ca", "d1", 1⟩, ⟨"b", "cb", "d2", 2⟩, ⟨"c", "cc", "d3", 3⟩] 2 2
    (by decide) (by decide)
  refine ⟨?_, by decide⟩
  have := h.1
  simpa using this

/-! ### Conversion CSV formatting (`app/send_conversions.py`
lines 100-127)

`format_conversion_csv` normalises each visit's `dateTime` string
(space → `T`, append `Z` when no zone marker is present, `Z` →
`+00:00`), parses it with `datetime.fromisoformat` and emits one
`clientId,target,unixTime` line per visit that parses, under the exact
header `ClientId,Target,DateTime`.  The parser below models
`fromisoformat` on the second-precision format the pipeline produces
(`YYYY-MM-DDTHH:MM:SS+HH:MM`); any other shape yields `none` and the
visit is skipped, as the `except ValueError` branch does. -/

/-- Python's `str.replace` for a single-character pattern (the code only
replaces `" "` and `"Z"`). -/
def pyReplaceChar (c : Char) (rep : List Char) : List Char → List Char
  | [] => []
  | x :: xs => (if x = c then rep else [x]) ++ pyReplaceChar c rep xs

/-- Model of `dt_str.endswith("Z")`. -/
def strEndsWithZ (s : List Char) : Bool := s.getLast? == some 'Z'

def digitVal (c : Char) : Nat := c.toNat - 48

def parse2 (a b : Char) : Option Nat :=
  if a.isDigit && b.isDigit then some (10 * digitVal a + digitVal b) else none

def parse4 (a b c d : Char) : Option Nat :=
  if a.isDigit && b.isDigit && c.isDigit && d.isDigit then
    some (1000 * digitVal a + 100 * digitVal b + 10 * digitVal c + digitVal d)
  else none

def isLeap (y : Int) : Bool :=
  (y % 4 == 0 && !(y % 100 == 0)) || (y % 400 == 0)

def daysInMonth (y : Int) (m : Nat) : Nat :=
  if m = 1 then 31 else if m = 2 then (if isLeap y then 29 else 28)
  else if m = 3 then 31 else if m = 4 then 30 else if m = 5 then 31
  else if m = 6 then 30 else if m = 7 then 31 else if m = 8 then 31
  else if m = 9 then 30 else if m = 10 then 31 else if m = 11 then 30
  else if m = 12 then 31 else 0

/-- Days from 1970-01-01 to the civil date `y-m-d` (the standard
era-based calendar computation). -/
def daysFromCivil (y : Int) (m d : Nat) : Int :=
  let yAdj : Int := if m ≤ 2 then y - 1 else y
  let era : Int := yAdj.fdiv 400
  let yoe : Int := yAdj - era * 400
  let mp : Int := if m ≤ 2 then (m : Int) + 9 else (m : Int) - 3
  let doy : Int := (153 * mp + 2).fdiv 5 + (d : Int) - 1
  let doe : Int := yoe * 365 + yoe.fdiv 4 - yoe.fdiv 100 + doy
  era * 146097 + doe - 719468

/-- Unix epoch seconds of an aware timestamp with a UTC offset in
minutes: what `datetime.timestamp()` returns (truncated to `int`) for a
timezone-aware second-precision datetime. -/
def epochOf (y : Int) (m d h mi s : Nat) (offsetMin : Int) : Int :=
  daysFromCivil y m d * 86400 + (h : Int) * 3600 + (mi : Int) * 60 + (s : Int)
    - offsetMin * 60

/-- Model of `datetime.fromisoformat` on the pipeline's normalised strings:
exactly `YYYY-MM-DDTHH:MM:SS+HH:MM`, with calendar validation. -/
def parseIso : List Char → Option (Int × Nat × Nat × Nat × Nat × Nat × Int)
  | [y1, y2, y3, y4, '-', m1, m2, '-', d1, d2, 'T',
     h1, h2, ':', n1, n2, ':', s1, s2, '+', o1, o2, ':', o3, o4] =>
    match parse4 y1 y2 y3 y4, parse2 m1 m2, parse2 d1 d2, parse2 h1 h2,
        parse2 n1 n2, parse2 s1 s2, parse2 o1 o2, parse2 o3 o4 with
    | some y, some mo, some da, some ho, some mi, some se, some oh, some om =>
        if 1 ≤ mo ∧ mo ≤ 12 ∧ 1 ≤ da ∧ da ≤ daysInMonth y mo ∧ ho ≤ 23 ∧
            mi ≤ 59 ∧ se ≤ 59 ∧ oh ≤ 23 ∧ om ≤ 59 then
          some ((y : Int), mo, da, ho, mi, se, (oh : Int) * 60 + (om : Int))
        else none
    | _, _, _, _, _, _, _, _ => none
  | _ => none

/-- Model of `int(datetime.fromisoformat(s).timestamp())`, `none` on
`ValueError`. -/
def pyFromIsoTimestamp (s : List Char) : Option Int :=
  (parseIso s).map fun x =>
    match x with
    | (y, mo, da, ho, mi, se, off) => epochOf y mo da ho mi se off

/-- Lines 114-125: normalise one visit's `dateTime`, parse it, and
produce its CSV row; `none` models the logged-and-skipped
`ValueError`. -/
def formatRow (target : String) (v : SelVisit) : Option String :=
  let dt1 := pyReplaceChar ' ' ['T'] v.dateTime.data
  let dt2 := if !strEndsWithZ dt1 && !dt1.contains '+' then dt1 ++ ['Z'] else dt1
  let dt3 := pyReplaceChar 'Z' "+00:00".data dt2
  (pyFromIsoTimestamp dt3).map fun e =>
    v.clientId ++ "," ++ target ++ "," ++ toString e ++ "\n"

/-- Model of `format_conversion_csv` (lines 100-127): start from the exact header
line and append one row per visit, skipping visits that fail to
parse. -/
def format_conversion_csv (visits : List SelVisit) (target : String) : String :=
  visits.foldl (fun acc v =>
    match formatRow target v with
    | some row => acc ++ row
    | none => acc) "ClientId,Target,DateTime\n"

example : daysFromCivil 1970 1 1 = 0 := by decide

example : daysFromCivil 2025 7 1 = 20270 := by decide

example : pyFromIsoTimestamp "2025-07-01T12:00:00+00:00".data = some 1751371200 := by
  decide

example :
    format_conversion_csv [⟨"v1", "abc", "2025-07-01 12:00:00", 200⟩] "4plus" =
      "ClientId,Target,DateTime\nabc,4plus,1751371200\n" := by decide

/-- One row appended to the fold accumulator per successfully parsed
visit. -/
theorem format_csv_foldl (target : String) :
    ∀ (visits : List SelVisit) (acc : String),
      visits.foldl (fun acc v =>
          match formatRow target v with
          | some row => acc ++ row
          | none => acc) acc =
        acc ++ String.join (visits.filterMap (formatRow target))
  | [], acc => by simp [String.join]
  | v :: vs, acc => by
      cases hv : formatRow target v with
      | none =>
          simp only [List.foldl_cons, List.filterMap_cons, hv]
          exact format_csv_foldl target vs acc
      | some row =>
          simp only [List.foldl_cons, List.filterMap_cons, hv]
          rw [format_csv_foldl target vs (acc ++ row)]
          rw [String.append_assoc]
          congr 1
          simp [String.join_eq]
          rfl

/-! ### Claim C7 -/

/-- C7: the bulk-conversion CSV payload starts with the exact header
line `ClientId,Target,DateTime`; the visit with
`dateTime = "2025-07-01 12:00:00"`, `clientId = "abc"` and target
`"4plus"` contributes the row `abc,4plus,1751371200`, whose timestamp
field 1751371200 is the Unix epoch second count of 2025-07-01 12:00:00
interpreted as UTC; and in general each successfully parsed visit
contributes exactly its one `clientId,target,unixTime` line, in
order. -/
theorem C7_conversion_csv (visits : List SelVisit) (target : String) :
    format_conversion_csv [⟨"v1", "abc", "2025-07-01 12:00:00", 200⟩] "4plus" =
      "ClientId,Target,DateTime\n" ++ "abc,4plus,1751371200\n" ∧
    epochOf 2025 7 1 12 0 0 0 = 1751371200 ∧
    format_conversion_csv visits target =
      "ClientId,Target,DateTime\n" ++
        String.join (visits.filterMap (formatRow target)) ∧
    (∀ v : SelVisit, v.dateTime = "2025-07-01 12:00:00" →
      formatRow target v =
        some (v.clientId ++ "," ++ target ++ "," ++ "1751371200" ++ "\n")) := by
  refine ⟨by decide, by decide, format_csv_foldl target visits _, ?_⟩
  intro v hv
  show (let dt1 := pyReplaceChar ' ' ['T'] v.dateTime.data
        let dt2 := if !strEndsWithZ dt1 && !dt1.contains '+' then dt1 ++ ['Z'] else dt1
        let dt3 := pyReplaceChar 'Z' "+00:00".data dt2
        (pyFromIsoTimestamp dt3).map fun e =>
          v.clientId ++ "," ++ target ++ "," ++ toString e ++ "\n") = _
  rw [hv]
  show Option.map _ (pyFromIsoTimestamp "2025-07-01T12:00:00+00:00".data) = _
  rw [show pyFromIsoTimestamp "2025-07-01T12:00:00+00:00".data = some 1751371200 by decide]
  rfl

/-- Witness for C7: the per-visit row of the concrete claimed visit. -/
theorem C7_conversion_csv_witness :
    formatRow "4plus" ⟨"v1", "abc", "2025-07-01 12:00:00", 200⟩ =
      some ("abc" ++ "," ++ "4plus" ++ "," ++ "1751371200" ++ "\n") := by
  exact (C7_conversion_csv [] "4plus").2.2.2
    ⟨"v1", "abc", "2025-07-01 12:00:00", 200⟩ rfl

/-! ### Single-conversion identifier validation
(`app/pydantic_models.py` lines 71-94)

`SingleConversionRequest.validate_identifiers` runs once per identifier
field, in declaration order `client_id`, `user_id`, `yclid`,
`purchase_id` (pydantic v1 semantics): `values` holds the previously
accepted fields; a field raises exactly when
`any([values.get("client_id"), values.get("user_id"),
values.get("yclid"), values.get("purchase_id")])` is false — Python
truthiness, under which both `None` and the empty string are falsy —
and its own value `is None`; a field that raises is left out of
`values` for the later fields.  The request passes validation iff no
field raised. -/

/-- Python truthiness of an identifier value: `None` and `""` are
falsy, every other string is truthy. -/
def pyTruthy (v : Option String) : Bool :=
  match v with
  | none => false
  | some s => !(s == "")

/-- One field's validation step: the accumulator is the accepted values
of the four identifier fields seen so far plus the number of raised
errors.  The raise condition is the source's
`not any([...truthiness...]) and v is None`. -/
def stepField (acc : List (Option String) × Nat) (v : Option String) :
    List (Option String) × Nat :=
  if !acc.1.any pyTruthy && v.isNone then (acc.1, acc.2 + 1)
  else (acc.1 ++ [v], acc.2)

def identifierErrors (c u y p : Option String) : Nat :=
  ([c, u, y, p].foldl stepField ([], 0)).2

/-- The request passes pydantic validation (and so reaches the CSV
formatting and the network call in `send_single_conversion`). -/
def singleConversionValid (c u y p : Option String) : Bool :=
  identifierErrors c u y p == 0

/-- The amended claim's acceptance predicate, following its words: scan
the identifier fields in order, carrying `t` = "a truthy (non-None,
non-empty) identifier has been seen"; a `None` field with no truthy
predecessor is a validation error, and the request is accepted when no
field errs. -/
def identifiersAcceptedSpec (t : Bool) : List (Option String) → Bool
  | [] => true
  | v :: vs =>
      if !t && v.isNone then false
      else identifiersAcceptedSpec (t || pyTruthy v) vs

/-- The error-counting fold of the validator agrees with the scan of the
amended claim: no error was raised (and none had been before) iff every
`None` field has a truthy predecessor. -/
theorem foldl_stepField_spec :
    ∀ (vs : List (Option String)) (l : List (Option String)) (n : Nat),
      ((vs.foldl stepField (l, n)).2 == 0) =
        ((n == 0) && identifiersAcceptedSpec (l.any pyTruthy) vs)
  | [], l, n => by simp [identifiersAcceptedSpec]
  | v :: vs, l, n => by
      by_cases hc : (!l.any pyTruthy && v.isNone) = true
      · have hstep : stepField (l, n) v = (l, n + 1) := by
          unfold stepField
          rw [if_pos hc]
        have hspec : identifiersAcceptedSpec (l.any pyTruthy) (v :: vs) = false := by
          unfold identifiersAcceptedSpec
          rw [if_pos hc]
        simp only [List.foldl_cons, hstep, hspec,
          foldl_stepField_spec vs l (n + 1)]
        simp
      · have hstep : stepField (l, n) v = (l ++ [v], n) := by
          unfold stepField
          rw [if_neg hc]
        have hany : (l ++ [v]).any pyTruthy = (l.any pyTruthy || pyTruthy v) := by
          simp [List.any_append]
        have hspec : identifiersAcceptedSpec (l.any pyTruthy) (v :: vs) =
            identifiersAcceptedSpec (l.any pyTruthy || pyTruthy v) vs := by
          unfold identifiersAcceptedSpec
          rw [if_neg hc]
          cases vs <;> rfl
        simp only [List.foldl_cons, hstep,
          foldl_stepField_spec vs (l ++ [v]) n, hany, hspec]

/-! ### Claim C8 -/

/-- C8 is refuted on the code: a request supplying two identifiers —
`client_id` and `user_id` both set — passes the
`SingleConversionRequest` validation (the validator only ever checks
"at least one", and even that only against the fields seen so far), so
it is not rejected and proceeds to the network call. -/
theorem C8_counterexample :
    singleConversionValid (some "cid-1") (some "uid-2") none none = true := by
  decide

/-- C8 (amended): a field of the validator raises exactly when it is
`None` and no truthy (non-`None`, non-empty) identifier precedes it in
the order `client_id`, `user_id`, `yclid`, `purchase_id`; the request
is accepted iff no field raises.  Hence a request with zero identifiers
is rejected before any network call, as claimed; a request whose
identifiers are all `None` except a lone `user_id` is also rejected; an
empty-string `client_id` alone is rejected (it is not `None`, but it is
falsy for the later fields); but more-than-one is not rejected: a
truthy `client_id` together with any other identifiers is accepted, and
four empty-string identifiers are accepted outright. -/
theorem C8_validator_amended (c u y p : Option String) :
    singleConversionValid c u y p = identifiersAcceptedSpec false [c, u, y, p] ∧
    singleConversionValid none none none none = false ∧
    singleConversionValid none (some "uid-2") none none = false ∧
    singleConversionValid (some "") none none none = false ∧
    singleConversionValid (some "cid-1") (some "uid-2") none none = true ∧
    singleConversionValid (some "") (some "") (some "") (some "") = true := by
  refine ⟨?_, by decide, by decide, by decide, by decide, by decide⟩
  unfold singleConversionValid identifierErrors
  have h := foldl_stepField_spec [c, u, y, p] [] 0
  simpa using h

/-! ### Upload status reconciliation
(`app/send_webhook_conversions.py` lines 302-375,
`app/main.py` lines 420-465) -/

/-- The repository's own upload/batch status vocabulary
(`pending`, `uploaded`, `processing`, `completed`, `error`). -/
def systemStatuses : List String :=
  ["pending", "uploaded", "processing", "completed", "error"]

/-- The fixed lookup table of `check_webhook_batch_status`
(lines 347-354). -/
def statusMapping : List (String × String) :=
  [("PREPARED", "uploaded"), ("UPLOADED", "uploaded"),
   ("EXPORTED", "processing"), ("MATCHED", "processing"),
   ("PROCESSED", "completed"), ("LINKAGE_FAILURE", "error")]

/-- Model of `status_mapping.get(metrika_status, 'processing')` (line 356). -/
def mapMetrikaStatus (s : String) : String :=
  (statusMapping.lookup s).getD "processing"

/-- One iteration of the polling loop `check_conversion_upload_status`
(main.py lines 441-459): the provider-reported status is persisted
verbatim via `update_conversion_status`, and the loop stops early iff
the reported status is `processed` or `failed`. -/
structure UploadPollStep where
  storedStatus : String
  terminal : Bool
deriving DecidableEq, Repr

def checkConversionUploadStep (providerStatus : String) : UploadPollStep :=
  ⟨providerStatus, providerStatus == "processed" || providerStatus == "failed"⟩

/-! ### Claim C9 -/

/-- C9 is refuted on the code: the task-upload reconciliation poller
(`check_conversion_upload_status`) stores the provider-reported status
verbatim, so the provider status `MATCHED` is stored as `MATCHED` —
outside the system's status vocabulary and not the safe default
`processing` — with no lookup table applied on that path. -/
theorem C9_counterexample :
    (checkConversionUploadStep "MATCHED").storedStatus = "MATCHED" ∧
    "MATCHED" ∉ systemStatuses := by
  decide

/-- C9 (amended): the webhook-batch reconciliation maps every
provider-reported status through the fixed lookup table into the
system's own vocabulary, with every status outside the table mapping to
the safe default `processing`; the task-upload reconciliation poller,
by contrast, stores the provider status verbatim without any mapping. -/
theorem C9_status_mapping_amended (s : String) :
    mapMetrikaStatus s ∈ systemStatuses ∧
    (statusMapping.lookup s = none → mapMetrikaStatus s = "processing") ∧
    (checkConversionUploadStep s).storedStatus = s := by
  refine ⟨?_, ?_, rfl⟩
  · unfold mapMetrikaStatus statusMapping
    simp only [List.lookup]
    repeat' split
    all_goals simp [systemStatuses]
  · intro h
    unfold mapMetrikaStatus
    rw [h]
    rfl

/-- Witness for the amended C9: an unknown provider status maps to
`processing`; a known one (`PROCESSED`) maps into the vocabulary; the
upload poller stores the raw string. -/
theorem C9_status_mapping_amended_witness :
    mapMetrikaStatus "SOME_NEW_STATUS" = "processing" ∧
    mapMetrikaStatus "PROCESSED" ∈ systemStatuses ∧
    (checkConversionUploadStep "SOME_NEW_STATUS").storedStatus = "SOME_NEW_STATUS" := by
  exact ⟨(C9_status_mapping_amended "SOME_NEW_STATUS").2.1 (by decide),
    (C9_status_mapping_amended "PROCESSED").1,
    (C9_status_mapping_amended "SOME_NEW_STATUS").2.2⟩

end MetrikaScore
